import Mathlib

/-!
Policode notification functions

A shallow embedding of the two Cloud Functions builds of the repository:

* `Backend`   : `backend-functions/src/index.ts` (and its compiled `lib/index.js`);
* `Functions` : `functions/lib/index.js`.

Every external call (document reads and updates, the unread query, the multicast
send) is a step on an explicit `World`: it appends an `Effect` to the trace and
its answer comes from the `Env` of the invocation, which may make it throw.
A handler returns the pair of its result (`Except String _`, the error being
the message of the thrown `Error`) and the world it leaves behind.
-/

namespace Policode

/-! ## Data model -/

/-- The `error` of a failed send: only its `code` is read. -/
structure FirebaseError where
  code : String
deriving DecidableEq, Repr

/-- One entry of `response.responses`: `success` and the optional `error`. -/
structure SendResponse where
  success : Bool
  error : Option FirebaseError
deriving DecidableEq, Repr

/-- The value `sendEachForMulticast` resolves to. -/
structure BatchResponse where
  successCount : Nat
  failureCount : Nat
  responses : List SendResponse
deriving DecidableEq, Repr

/-- The data of a `users/{id}` document: `fcmTokens` may be absent. -/
structure UserData where
  fcmTokens : Option (List String)
deriving DecidableEq, Repr

/-- The data of a `notifications/{id}` document, `snapshot.data()`. -/
structure NotificationDoc where
  userId : Option String
  title : Option String
  message : Option String
  type : Option String
  postId : Option String
  fromUserId : Option String
  fromUserName : Option String
  actionUrl : Option String
  priority : Option String
deriving DecidableEq, Repr

/-- The creation event: `event.data` (the snapshot, possibly undefined) and
`event.params.notificationId`. -/
structure CreateEvent where
  data : Option NotificationDoc
  notificationId : String
deriving DecidableEq, Repr

/-- The interface `NotificationData`: the payload of a callable request. Every
field is optional at run time, the cast `request.data as NotificationData`
checks nothing. -/
structure NotificationData where
  title : Option String
  body : Option String
  type : Option String
  postId : Option String
  fromUserId : Option String
  fromUserName : Option String
  actionUrl : Option String
  priority : Option String
  targetUserId : Option String
deriving DecidableEq, Repr

/-- The caller identity `request.auth`. -/
structure AuthData where
  uid : String
deriving DecidableEq, Repr

/-- A callable request: `request.data` and `request.auth`. -/
structure CallableRequest where
  data : NotificationData
  auth : Option AuthData
deriving DecidableEq, Repr

/-- The `android.notification` block of a message. -/
structure AndroidNotification where
  clickAction : String
  priority : String
  sound : String
  color : Option String
deriving DecidableEq, Repr

/-- The `apns.payload.aps` block of a message; `alert` is (title, body). -/
structure Aps where
  sound : String
  badge : Nat
  alert : Option (Option String × Option String)
deriving DecidableEq, Repr

/-- The argument of `sendEachForMulticast`. -/
structure MulticastMessage where
  title : Option String
  body : Option String
  data : List (String × String)
  android : Option AndroidNotification
  apns : Option Aps
  tokens : List String
deriving DecidableEq, Repr

/-- The fields written by `snapshot.ref.update` (timestamps left out). -/
structure RecordPatch where
  sent : Bool
  successCount : Option Nat
  failureCount : Option Nat
  error : Option String
deriving DecidableEq, Repr

/-- The object a direct send returns to its caller. -/
structure DirectResponse where
  success : Bool
  message : Option String
  successCount : Option Nat
  failureCount : Option Nat
deriving DecidableEq, Repr

/-- An external call made by a handler. `userUpdate uid xs` is
`users/uid.update(fcmTokens: arrayRemove(...xs))`; an element `none` of `xs`
is the `undefined` that `tokens[index]` gives past the end of `tokens`. -/
inductive Effect where
  | userGet (uid : String)
  | unreadQuery (uid : String)
  | send (msg : MulticastMessage)
  | userUpdate (uid : String) (remove : List (Option String))
  | recordUpdate (patch : RecordPatch)
deriving DecidableEq, Repr

/-- The state a handler runs on: the `users` collection, the patches applied
to the notification record, and the trace of external calls so far. -/
structure World where
  users : String → Option UserData
  record : List RecordPatch
  trace : List Effect

/-- The answers of the platform during one invocation. `some e` makes the call
throw an `Error` with message `e`; every call site runs at most once. -/
structure Env where
  userGet : Option String
  unread : Except String Nat
  send : Except String BatchResponse
  userUpdate : Option String
  recordUpdate : Option String
  markerUpdate : Option String

/-! ## JavaScript helpers -/

/-- The test `!s` on an optional string: `undefined` and `""` are falsy. -/
def falsy (s : Option String) : Bool :=
  match s with
  | none => true
  | some v => decide (v = "")

/-- The expression `s || d` on an optional string. -/
def orDefault (s : Option String) (d : String) : String :=
  match s with
  | none => d
  | some v => if v = "" then d else v

/-! ## The external calls -/

/-- Append a call to the trace. -/
def World.emit (w : World) (e : Effect) : World :=
  { w with trace := w.trace ++ [e] }

/-- The call `admin.firestore().collection("users").doc(uid).get()`: throws, or
gives the document (`none` when `exists` is false). -/
def usersGet (env : Env) (uid : String) (w : World) :
    Except String (Option UserData) × World :=
  match env.userGet with
  | some e => (.error e, w.emit (.userGet uid))
  | none => (.ok (w.users uid), w.emit (.userGet uid))

/-- The transform `FieldValue.arrayRemove(...remove)` on a stored array: every
occurrence of each listed element goes. -/
def arrayRemove (remove : List (Option String)) (arr : List String) : List String :=
  arr.filter (fun t => decide (some t ∉ remove))

/-- The call `users/uid.update(fcmTokens: arrayRemove(...remove))`: throws when
the platform fails or the document does not exist, else rewrites the array
(an absent field becomes the empty array). -/
def usersUpdate (env : Env) (uid : String) (remove : List (Option String)) (w : World) :
    Except String Unit × World :=
  match env.userUpdate with
  | some e => (.error e, w.emit (.userUpdate uid remove))
  | none =>
    match w.users uid with
    | none => (.error "NOT_FOUND", w.emit (.userUpdate uid remove))
    | some u =>
      (.ok (),
        { (w.emit (.userUpdate uid remove)) with
          users := fun k =>
            if k = uid then some ⟨some (arrayRemove remove (u.fcmTokens.getD []))⟩
            else w.users k })

/-- The call `admin.messaging().sendEachForMulticast(message)`. -/
def sendEachForMulticast (env : Env) (msg : MulticastMessage) (w : World) :
    Except String BatchResponse × World :=
  (env.send, w.emit (.send msg))

/-- The call `snapshot.ref.update(patch)`; `fault` is the answer of the
platform for this call site. -/
def recordUpdate (fault : Option String) (patch : RecordPatch) (w : World) :
    Except String Unit × World :=
  match fault with
  | some e => (.error e, w.emit (.recordUpdate patch))
  | none => (.ok (), { (w.emit (.recordUpdate patch)) with record := w.record ++ [patch] })

/-! ## Code shared by the two builds -/

/-- The function `getUnreadCount`: the size of the unread query, 0 when the
query throws. -/
def getUnreadCount (env : Env) (userId : String) (w : World) : Nat × World :=
  match env.unread with
  | .ok size => (size, w.emit (.unreadQuery userId))
  | .error _ => (0, w.emit (.unreadQuery userId))

/-- The loop `responses.forEach((response, index) => ...)` of
`cleanupInvalidTokens`, from position `index` with `invalidTokens` collected so
far. Reading `error.code` of an undefined `error` throws a `TypeError`. -/
def collectInvalid (tokens : List String) :
    List SendResponse → Nat → List (Option String) → Except String (List (Option String))
  | [], _, invalidTokens => .ok invalidTokens
  | response :: rest, index, invalidTokens =>
    if !response.success then
      match response.error with
      | none => .error "Cannot read properties of undefined (reading code)"
      | some error =>
        if error.code = "messaging/invalid-registration-token" ∨
            error.code = "messaging/registration-token-not-registered" then
          collectInvalid tokens rest (index + 1) (invalidTokens ++ [tokens[index]?])
        else collectInvalid tokens rest (index + 1) invalidTokens
    else collectInvalid tokens rest (index + 1) invalidTokens

namespace Backend

/-- The function `cleanupInvalidTokens` of `backend-functions/src/index.ts`:
the update is awaited with no handler around it. -/
def cleanupInvalidTokens (env : Env) (userId : String) (tokens : List String)
    (responses : List SendResponse) (w : World) : Except String Unit × World :=
  match collectInvalid tokens responses 0 [] with
  | .error e => (.error e, w)
  | .ok invalidTokens =>
    if invalidTokens.length > 0 then usersUpdate env userId invalidTokens w
    else (.ok (), w)

end Backend

namespace Functions

/-- The function `cleanupInvalidTokens` of `functions/lib/index.js`: the update
sits in a `try` whose `catch` only logs. -/
def cleanupInvalidTokens (env : Env) (userId : String) (tokens : List String)
    (responses : List SendResponse) (w : World) : Except String Unit × World :=
  match collectInvalid tokens responses 0 [] with
  | .error e => (.error e, w)
  | .ok invalidTokens =>
    if invalidTokens.length > 0 then
      match usersUpdate env userId invalidTokens w with
      | (.ok _, w1) => (.ok (), w1)
      | (.error _, w1) => (.ok (), w1)
    else (.ok (), w)

end Functions

/-- The literal `android.notification` of the messages. -/
def androidHints (color : Option String) : AndroidNotification :=
  { clickAction := "FLUTTER_NOTIFICATION_CLICK", priority := "high", sound := "default",
    color := color }

namespace Backend

/-- The `try` block of `sendNotificationOnCreate` in `backend-functions/src/index.ts`,
for a defined snapshot whose data is `notification`. -/
def onCreateTry (env : Env) (event : CreateEvent) (notification : NotificationDoc) (w : World) :
    Except String Unit × World :=
  if falsy notification.userId then (.ok (), w)
  else
    let userId := notification.userId.getD ""
    match usersGet env userId w with
    | (.error e, w1) => (.error e, w1)
    | (.ok none, w1) => (.ok (), w1)
    | (.ok (some userData), w1) =>
      let fcmTokens := userData.fcmTokens.getD []
      if fcmTokens.length = 0 then (.ok (), w1)
      else
        let badge := getUnreadCount env userId w1
        let message : MulticastMessage :=
          { title := notification.title
            body := notification.message
            data :=
              [("type", orDefault notification.type "system_message"),
               ("postId", orDefault notification.postId ""),
               ("fromUserId", orDefault notification.fromUserId ""),
               ("fromUserName", orDefault notification.fromUserName ""),
               ("actionUrl", orDefault notification.actionUrl ""),
               ("priority", orDefault notification.priority "medium"),
               ("notificationId", event.notificationId)]
            android := some (androidHints none)
            apns := some { sound := "default", badge := badge.1, alert := none }
            tokens := fcmTokens }
        match sendEachForMulticast env message badge.2 with
        | (.error e, w3) => (.error e, w3)
        | (.ok response, w3) =>
          if response.failureCount > 0 then
            cleanupInvalidTokens env userId fcmTokens response.responses w3
          else (.ok (), w3)

/-- The handler `sendNotificationOnCreate` of `backend-functions/src/index.ts`:
the `catch` only logs. -/
def sendNotificationOnCreate (env : Env) (event : CreateEvent) (w : World) :
    Except String Unit × World :=
  match event.data with
  | none => (.ok (), w)
  | some snapshot =>
    match onCreateTry env event snapshot w with
    | (.ok _, w1) => (.ok (), w1)
    | (.error _, w1) => (.ok (), w1)

/-- The `try` block of `sendDirectNotification` in `backend-functions/src/index.ts`. -/
def directTry (env : Env) (request : CallableRequest) (w : World) :
    Except String DirectResponse × World :=
  let data := request.data
  if falsy data.targetUserId then (.error "targetUserId es requerido", w)
  else
    let targetUserId := data.targetUserId.getD ""
    match usersGet env targetUserId w with
    | (.error e, w1) => (.error e, w1)
    | (.ok none, w1) => (.error "Usuario no encontrado", w1)
    | (.ok (some userData), w1) =>
      let fcmTokens := userData.fcmTokens.getD []
      if fcmTokens.length = 0 then
        (.ok { success := true, message := some "Usuario sin tokens FCM",
               successCount := none, failureCount := none }, w1)
      else
        let message : MulticastMessage :=
          { title := data.title
            body := data.body
            data :=
              [("type", orDefault data.type "system_message"),
               ("postId", orDefault data.postId ""),
               ("fromUserId", orDefault data.fromUserId ""),
               ("fromUserName", orDefault data.fromUserName ""),
               ("actionUrl", orDefault data.actionUrl ""),
               ("priority", orDefault data.priority "medium")]
            android := none
            apns := none
            tokens := fcmTokens }
        match sendEachForMulticast env message w1 with
        | (.error e, w2) => (.error e, w2)
        | (.ok response, w2) =>
          (.ok { success := true, message := none,
                 successCount := some response.successCount,
                 failureCount := some response.failureCount }, w2)

/-- The handler `sendDirectNotification` of `backend-functions/src/index.ts`:
the authentication check, then the `try` block, whose errors the `catch`
replaces by one fixed message. -/
def sendDirectNotification (env : Env) (request : CallableRequest) (w : World) :
    Except String DirectResponse × World :=
  match request.auth with
  | none => (.error "El usuario debe estar autenticado", w)
  | some _ =>
    match directTry env request w with
    | (.ok r, w1) => (.ok r, w1)
    | (.error _, w1) => (.error "Error interno del servidor", w1)

end Backend

namespace Functions

/-- The `try` block of `sendNotificationOnCreate` in `functions/lib/index.js`,
for a defined snapshot whose data is `notification`. -/
def onCreateTry (env : Env) (event : CreateEvent) (notification : NotificationDoc) (w : World) :
    Except String Unit × World :=
  if falsy notification.userId then (.ok (), w)
  else
    let userId := notification.userId.getD ""
    match usersGet env userId w with
    | (.error e, w1) => (.error e, w1)
    | (.ok none, w1) => (.ok (), w1)
    | (.ok (some userData), w1) =>
      let fcmTokens := userData.fcmTokens.getD []
      if fcmTokens.length = 0 then (.ok (), w1)
      else
        let badge := getUnreadCount env userId w1
        let message : MulticastMessage :=
          { title := notification.title
            body := notification.message
            data :=
              [("type", orDefault notification.type "system_message"),
               ("postId", orDefault notification.postId ""),
               ("fromUserId", orDefault notification.fromUserId ""),
               ("fromUserName", orDefault notification.fromUserName ""),
               ("actionUrl", orDefault notification.actionUrl ""),
               ("priority", orDefault notification.priority "medium"),
               ("notificationId", event.notificationId)]
            android := some (androidHints (some "#2196F3"))
            apns := some { sound := "default", badge := badge.1,
                           alert := some (notification.title, notification.message) }
            tokens := fcmTokens }
        match sendEachForMulticast env message badge.2 with
        | (.error e, w3) => (.error e, w3)
        | (.ok response, w3) =>
          let cleaned :=
            if response.failureCount > 0 then
              cleanupInvalidTokens env userId fcmTokens response.responses w3
            else (.ok (), w3)
          match cleaned with
          | (.error e, w4) => (.error e, w4)
          | (.ok _, w4) =>
            recordUpdate env.recordUpdate
              { sent := true, successCount := some response.successCount,
                failureCount := some response.failureCount, error := none } w4

/-- The handler `sendNotificationOnCreate` of `functions/lib/index.js`: the
`catch` logs and then awaits the update that marks the record as failed. -/
def sendNotificationOnCreate (env : Env) (event : CreateEvent) (w : World) :
    Except String Unit × World :=
  match event.data with
  | none => (.ok (), w)
  | some snapshot =>
    match onCreateTry env event snapshot w with
    | (.ok _, w1) => (.ok (), w1)
    | (.error error, w1) =>
      recordUpdate env.markerUpdate
        { sent := false, successCount := none, failureCount := none, error := some error } w1

/-- The `try` block of `sendDirectNotification` in `functions/lib/index.js`;
`auth` is the defined `request.auth`. -/
def directTry (env : Env) (request : CallableRequest) (auth : AuthData) (w : World) :
    Except String DirectResponse × World :=
  let data := request.data
  if falsy data.targetUserId then (.error "targetUserId es requerido", w)
  else if falsy data.title || falsy data.body then (.error "title y body son requeridos", w)
  else
    let targetUserId := data.targetUserId.getD ""
    match usersGet env targetUserId w with
    | (.error e, w1) => (.error e, w1)
    | (.ok none, w1) => (.error "Usuario de destino no encontrado", w1)
    | (.ok (some userData), w1) =>
      let fcmTokens := userData.fcmTokens.getD []
      if fcmTokens.length = 0 then
        (.ok { success := true, message := some "Usuario sin tokens FCM",
               successCount := some 0, failureCount := some 0 }, w1)
      else
        let badge := getUnreadCount env targetUserId w1
        let message : MulticastMessage :=
          { title := data.title
            body := data.body
            data :=
              [("type", orDefault data.type "direct_message"),
               ("postId", orDefault data.postId ""),
               ("fromUserId", orDefault data.fromUserId auth.uid),
               ("fromUserName", orDefault data.fromUserName ""),
               ("actionUrl", orDefault data.actionUrl ""),
               ("priority", orDefault data.priority "medium")]
            android := some (androidHints (some "#2196F3"))
            apns := some { sound := "default", badge := badge.1, alert := none }
            tokens := fcmTokens }
        match sendEachForMulticast env message badge.2 with
        | (.error e, w3) => (.error e, w3)
        | (.ok response, w3) =>
          let cleaned :=
            if response.failureCount > 0 then
              cleanupInvalidTokens env targetUserId fcmTokens response.responses w3
            else (.ok (), w3)
          match cleaned with
          | (.error e, w4) => (.error e, w4)
          | (.ok _, w4) =>
            (.ok { success := true, message := none,
                   successCount := some response.successCount,
                   failureCount := some response.failureCount }, w4)

/-- The handler `sendDirectNotification` of `functions/lib/index.js`: the
authentication check, then the `try` block, whose errors the `catch` wraps,
keeping their message. -/
def sendDirectNotification (env : Env) (request : CallableRequest) (w : World) :
    Except String DirectResponse × World :=
  match request.auth with
  | none => (.error "El usuario debe estar autenticado", w)
  | some auth =>
    match directTry env request auth w with
    | (.ok r, w1) => (.ok r, w1)
    | (.error error, w1) => (.error ("Error interno del servidor: " ++ error), w1)

end Functions

/-! ## Observations on a world -/

/-- The token list stored for a user, empty when the user or the field is absent. -/
def tokensOf (w : World) (uid : String) : List String :=
  match w.users uid with
  | some u => u.fcmTokens.getD []
  | none => []

/-! ## Contract-level definitions and example inputs -/

/-- The error codes that make a token permanently unusable. -/
def permanentCodes : List String :=
  ["messaging/invalid-registration-token", "messaging/registration-token-not-registered"]

/-- The filter of the reconciler in the words of its contract: the outcome is a
failure and its error code is a permanent one. -/
def permanentFailure (r : SendResponse) : Bool :=
  match r.error with
  | some e => !r.success && decide (e.code ∈ permanentCodes)
  | none => false

/-- The filtered subset in the words of the contract: the tokens whose aligned
outcome is a permanent failure. -/
def invalidSubset (tokens : List String) (responses : List SendResponse) : List String :=
  ((tokens.zip responses).filter (fun p => permanentFailure p.2)).map Prod.fst

/-- Every failed outcome carries its error, as the responses of the gateway do. -/
def failuresCarryError (responses : List SendResponse) : Prop :=
  ∀ r ∈ responses, r.success = false → r.error.isSome = true

instance (responses : List SendResponse) : Decidable (failuresCarryError responses) := by
  unfold failuresCarryError; infer_instance

/-- The number of token-removal updates issued so far. -/
def removalOps (w : World) : Nat :=
  w.trace.countP (fun e => match e with | .userUpdate _ _ => true | _ => false)

/-- A platform that answers every call and reports `batch` for the send. -/
def calmEnv (batch : BatchResponse) : Env :=
  { userGet := none, unread := .ok 0, send := .ok batch, userUpdate := none,
    recordUpdate := none, markerUpdate := none }

/-- A world whose only user `"u"` holds the tokens `tokens`. -/
def worldOf (tokens : List String) : World :=
  { users := fun k => if k = "u" then some ⟨some tokens⟩ else none, record := [], trace := [] }

/-- The outcome list of the example of the specification, codes as written there. -/
def specExampleOutcomes : List SendResponse :=
  [⟨true, none⟩, ⟨false, some ⟨"invalid-registration-token"⟩⟩,
   ⟨false, some ⟨"messaging/internal-error"⟩⟩]

/-- The same outcome list with the code the gateway reports for an invalid token. -/
def gatewayExampleOutcomes : List SendResponse :=
  [⟨true, none⟩, ⟨false, some ⟨"messaging/invalid-registration-token"⟩⟩,
   ⟨false, some ⟨"messaging/internal-error"⟩⟩]

/-- The number of push sends issued so far. -/
def sendOps (w : World) : Nat :=
  w.trace.countP (fun e => match e with | .send _ => true | _ => false)

/-- A direct-send payload with the three required fields and nothing else. -/
def plainData (targetUserId title body : Option String) : NotificationData :=
  { title := title, body := body, type := none, postId := none, fromUserId := none,
    fromUserName := none, actionUrl := none, priority := none, targetUserId := targetUserId }

/-- A notification record for `userId` with a title and a message. -/
def plainDoc (userId : Option String) : NotificationDoc :=
  { userId := userId, title := some "hello", message := some "world", type := none,
    postId := none, fromUserId := none, fromUserName := none, actionUrl := none,
    priority := none }

/-- A store outage: the user read and every record update throw `UNAVAILABLE`,
the token update too. -/
def outageEnv : Env :=
  { userGet := some "UNAVAILABLE", unread := .error "UNAVAILABLE",
    send := .error "UNAVAILABLE", userUpdate := some "UNAVAILABLE",
    recordUpdate := some "UNAVAILABLE", markerUpdate := some "UNAVAILABLE" }

/-- The platform `env` with the answer of the token update replaced. -/
def Env.withUserUpdate (env : Env) (fault : Option String) : Env :=
  { env with userUpdate := fault }

/-- The number of updates of the notification record issued so far. -/
def recordOps (w : World) : Nat :=
  w.trace.countP (fun e => match e with | .recordUpdate _ => true | _ => false)

/-- A platform on which only the read of the user document throws. -/
def readFailureEnv : Env :=
  { userGet := some "UNAVAILABLE", unread := .ok 0, send := .ok ⟨0, 0, []⟩,
    userUpdate := none, recordUpdate := none, markerUpdate := none }

/-- The outcome list of a second reconciliation: `"C"` is no longer registered. -/
def secondExampleOutcomes : List SendResponse :=
  [⟨true, none⟩, ⟨false, some ⟨"messaging/registration-token-not-registered"⟩⟩]

/-- A document of the `notifications` collection: its id and its `createdAt`,
a store timestamp in nanoseconds since the epoch (every notification record
carries one). -/
structure NotificationEntry where
  id : String
  createdAt : Int
deriving DecidableEq, Repr

/-- The answers of the platform during one retention sweep: `some e` makes the
`get()` of the query, or `batch.commit()`, throw. -/
structure SweepEnv where
  query : Option String
  commit : Option String

/-- The date `thirtyDaysAgo` of `cleanupOldNotifications`: `new Date()`, given
as `now` in milliseconds since the epoch, after `setDate(getDate() - 30)`. The
runtime keeps UTC, where a day is always 86 400 000 ms. -/
def thirtyDaysAgo (now : Int) : Int :=
  now - 30 * 86400000

/-- The conversion `admin.firestore.Timestamp.fromDate`, milliseconds to the
nanoseconds of a store timestamp. -/
def timestampFromDate (date : Int) : Int :=
  date * 1000000

/-- The handler `cleanupOldNotifications` of `backend-functions/src/index.ts`
on the `notifications` collection: the query `createdAt < cutoff`, one batch
with a delete per matching document reference, committed at once. A throw of
the query or of the commit is caught and logged, the collection is then as it
was. -/
def cleanupOldNotifications (env : SweepEnv) (now : Int)
    (notifications : List NotificationEntry) : Except String Unit × List NotificationEntry :=
  match env.query with
  | some _ => (.ok (), notifications)
  | none =>
    let oldNotifications :=
      notifications.filter
        (fun doc => decide (doc.createdAt < timestampFromDate (thirtyDaysAgo now)))
    let batch := oldNotifications.map (fun doc => doc.id)
    match env.commit with
    | some _ => (.ok (), notifications)
    | none => (.ok (), notifications.filter (fun doc => decide (doc.id ∉ batch)))

/-- A collection with a record just before, one at and one after the cutoff of
a sweep at `now = 30 days + 1 s`. -/
def exampleNotifications : List NotificationEntry :=
  [⟨"old", 999999999⟩, ⟨"edge", 1000000000⟩, ⟨"new", 2000000000⟩]

/-! ## Theorems -/

theorem invalidSubset_cons (t : String) (ts : List String) (r : SendResponse)
    (rs : List SendResponse) :
    invalidSubset (t :: ts) (r :: rs)
      = if permanentFailure r = true then t :: invalidSubset ts rs else invalidSubset ts rs := by
  by_cases h : permanentFailure r = true <;> simp [invalidSubset, List.filter_cons, h]

theorem collectInvalid_eq (tokens : List String) :
    ∀ (rs : List SendResponse) (i : Nat) (acc : List (Option String)),
      failuresCarryError rs → i + rs.length ≤ tokens.length →
      collectInvalid tokens rs i acc
        = .ok (acc ++ (invalidSubset (tokens.drop i) rs).map some) := by
  intro rs
  induction rs with
  | nil => intro i acc _ _; simp [collectInvalid, invalidSubset]
  | cons r rest ih =>
    intro i acc hwf hlen
    have hi : i < tokens.length := by simp at hlen; omega
    have hrest : failuresCarryError rest := fun x hx => hwf x (List.mem_cons_of_mem _ hx)
    have hlen2 : (i + 1) + rest.length ≤ tokens.length := by simp at hlen; omega
    have hr := hwf r (List.mem_cons_self _ _)
    rw [List.drop_eq_getElem_cons hi, invalidSubset_cons]
    unfold collectInvalid
    cases hs : r.success with
    | true =>
      have hp : permanentFailure r = false := by
        unfold permanentFailure; cases r.error <;> simp [hs]
      simp [ih (i + 1) acc hrest hlen2, hp]
    | false =>
      have := hr hs
      cases he : r.error with
      | none => simp [he] at this
      | some e =>
        by_cases hc : e.code = "messaging/invalid-registration-token" ∨
            e.code = "messaging/registration-token-not-registered"
        · have hp : permanentFailure r = true := by
            simp [permanentFailure, he, hs, permanentCodes, hc]
          simp only [hp, if_true, hc, Bool.not_false, List.getElem?_eq_getElem hi]
          rw [ih (i + 1) _ hrest hlen2]
          simp
        · have hp : permanentFailure r = false := by
            simp [permanentFailure, he, hs, permanentCodes, hc]
          simp only [hp, if_false, hc, Bool.not_false, if_true]
          rw [ih (i + 1) _ hrest hlen2]
          simp

theorem mem_invalidSubset (tokens : List String) (responses : List SendResponse) (t : String) :
    t ∈ invalidSubset tokens responses ↔
      ∃ (i : Nat) (r : SendResponse),
        tokens[i]? = some t ∧ responses[i]? = some r ∧ permanentFailure r = true := by
  have hzip : ∀ p : String × SendResponse, p ∈ tokens.zip responses ↔
      ∃ i : Nat, tokens[i]? = some p.1 ∧ responses[i]? = some p.2 := by
    intro p
    rw [List.mem_iff_getElem?]
    simp only [List.getElem?_zip_eq_some]
  unfold invalidSubset
  simp only [List.mem_map, List.mem_filter, hzip]
  constructor
  · rintro ⟨⟨a, b⟩, ⟨⟨i, h1, h2⟩, h3⟩, rfl⟩
    exact ⟨i, b, h1, h2, h3⟩
  · rintro ⟨i, r, h1, h2, h3⟩
    exact ⟨(t, r), ⟨⟨i, h1, h2⟩, h3⟩, rfl⟩

theorem permanentFailure_iff (r : SendResponse) :
    permanentFailure r = true ↔
      r.success = false ∧ ∃ e : FirebaseError, r.error = some e ∧
        (e.code = "messaging/registration-token-not-registered" ∨
          e.code = "messaging/invalid-registration-token") := by
  unfold permanentFailure permanentCodes
  cases r.error with
  | none => simp
  | some e =>
    cases r.success <;> simp [or_comm]

theorem backend_cleanup_eq (env : Env) (userId : String) (tokens : List String)
    (responses : List SendResponse) (w : World)
    (haligned : tokens.length = responses.length) (hcarry : failuresCarryError responses) :
    Backend.cleanupInvalidTokens env userId tokens responses w
      = if invalidSubset tokens responses = [] then (.ok (), w)
        else usersUpdate env userId ((invalidSubset tokens responses).map some) w := by
  unfold Backend.cleanupInvalidTokens
  rw [collectInvalid_eq tokens responses 0 [] hcarry (by omega)]
  cases h : invalidSubset tokens responses <;> simp [h]

theorem functions_cleanup_eq (env : Env) (userId : String) (tokens : List String)
    (responses : List SendResponse) (w : World)
    (haligned : tokens.length = responses.length) (hcarry : failuresCarryError responses) :
    Functions.cleanupInvalidTokens env userId tokens responses w
      = if invalidSubset tokens responses = [] then (.ok (), w)
        else (.ok (), (usersUpdate env userId ((invalidSubset tokens responses).map some) w).2) := by
  unfold Functions.cleanupInvalidTokens
  rw [collectInvalid_eq tokens responses 0 [] hcarry (by omega)]
  simp only [List.drop_zero, List.nil_append, List.length_map]
  cases h : invalidSubset tokens responses with
  | nil => simp
  | cons a l =>
    simp only [List.length_cons, gt_iff_lt, Nat.zero_lt_succ, if_true]
    generalize usersUpdate env userId _ w = res
    rcases res with ⟨_ | _, w1⟩ <;> simp

theorem tokensOf_usersUpdate (env : Env) (userId : String) (remove : List (Option String))
    (w : World) (u : UserData) (huser : w.users userId = some u)
    (hupdate : env.userUpdate = none) :
    (usersUpdate env userId remove w).1 = .ok () ∧
    tokensOf (usersUpdate env userId remove w).2 userId = arrayRemove remove (tokensOf w userId) := by
  simp [usersUpdate, hupdate, huser, tokensOf]

theorem mem_arrayRemove (inv : List String) (arr : List String) (t : String) :
    t ∈ arrayRemove (inv.map some) arr ↔ t ∈ arr ∧ t ∉ inv := by
  simp [arrayRemove, List.mem_filter]

theorem arrayRemove_nil (arr : List String) : arrayRemove [] arr = arr := by
  simp [arrayRemove]

theorem arrayRemove_idem (remove : List (Option String)) (arr : List String) :
    arrayRemove remove (arrayRemove remove arr) = arrayRemove remove arr := by
  simp [arrayRemove, List.filter_filter]

theorem usersUpdate_users_idem (env : Env) (uid : String) (remove : List (Option String))
    (w : World) :
    (usersUpdate env uid remove (usersUpdate env uid remove w).2).2.users
      = (usersUpdate env uid remove w).2.users := by
  unfold usersUpdate
  cases hu : env.userUpdate with
  | some e => simp [World.emit]
  | none =>
    cases hw : w.users uid with
    | none => simp [World.emit, hw]
    | some u =>
      simp only [World.emit, if_true]
      funext k
      by_cases hk : k = uid <;> simp [hk, arrayRemove_idem]

theorem removalOps_usersUpdate (env : Env) (uid : String) (remove : List (Option String))
    (w : World) : removalOps (usersUpdate env uid remove w).2 = removalOps w + 1 := by
  unfold usersUpdate
  cases env.userUpdate with
  | some e => simp [World.emit, removalOps, List.countP_append]
  | none =>
    cases w.users uid <;> simp [World.emit, removalOps, List.countP_append]

theorem invalidSubset_all_success (tokens : List String) (responses : List SendResponse)
    (hall : ∀ r ∈ responses, r.success = true) : invalidSubset tokens responses = [] := by
  unfold invalidSubset
  simp only [List.map_eq_nil_iff, List.filter_eq_nil_iff]
  rintro ⟨t, r⟩ hp
  have hr := hall r (List.of_mem_zip hp).2
  unfold permanentFailure
  cases r.error <;> simp [hr]

theorem backend_tokensOf_cleanup (env : Env) (userId : String)
    (tokens : List String) (responses : List SendResponse) (w : World) (u : UserData)
    (haligned : tokens.length = responses.length) (hcarry : failuresCarryError responses)
    (huser : w.users userId = some u) (hupdate : env.userUpdate = none) :
    (Backend.cleanupInvalidTokens env userId tokens responses w).1 = .ok () ∧
    tokensOf (Backend.cleanupInvalidTokens env userId tokens responses w).2 userId
      = arrayRemove ((invalidSubset tokens responses).map some) (tokensOf w userId) := by
  rw [backend_cleanup_eq env userId tokens responses w haligned hcarry]
  by_cases h : invalidSubset tokens responses = []
  · simp [h, arrayRemove_nil]
  · simp only [h, if_false]
    exact tokensOf_usersUpdate env userId _ w u huser hupdate

theorem functions_tokensOf_cleanup (env : Env) (userId : String)
    (tokens : List String) (responses : List SendResponse) (w : World) (u : UserData)
    (haligned : tokens.length = responses.length) (hcarry : failuresCarryError responses)
    (huser : w.users userId = some u) (hupdate : env.userUpdate = none) :
    (Functions.cleanupInvalidTokens env userId tokens responses w).1 = .ok () ∧
    tokensOf (Functions.cleanupInvalidTokens env userId tokens responses w).2 userId
      = arrayRemove ((invalidSubset tokens responses).map some) (tokensOf w userId) := by
  rw [functions_cleanup_eq env userId tokens responses w haligned hcarry]
  by_cases h : invalidSubset tokens responses = []
  · simp [h, arrayRemove_nil]
  · simp only [h, if_false, true_and]
    exact (tokensOf_usersUpdate env userId _ w u huser hupdate).2

theorem mem_after_removal (tokens : List String) (responses : List SendResponse)
    (arr : List String) (t : String) :
    t ∈ arrayRemove ((invalidSubset tokens responses).map some) arr ↔
      t ∈ arr ∧
      ¬ ∃ (i : Nat) (r : SendResponse) (e : FirebaseError),
          tokens[i]? = some t ∧ responses[i]? = some r ∧ r.success = false ∧
          r.error = some e ∧
          (e.code = "messaging/registration-token-not-registered" ∨
            e.code = "messaging/invalid-registration-token") := by
  rw [mem_arrayRemove, mem_invalidSubset]
  apply and_congr_right
  intro _
  apply not_congr
  constructor
  · rintro ⟨i, r, h1, h2, h3⟩
    obtain ⟨hs, e, he, hc⟩ := (permanentFailure_iff r).1 h3
    exact ⟨i, r, e, h1, h2, hs, he, hc⟩
  · rintro ⟨i, r, e, h1, h2, hs, he, hc⟩
    exact ⟨i, r, h1, h2, (permanentFailure_iff r).2 ⟨hs, e, he, hc⟩⟩

/-- C1, the claim at its own example: with the error codes as the specification
writes them, `"invalid-registration-token"` is not a code the reconciler knows,
so it issues no removal and `"B"` stays in the token set. -/
theorem cleanupInvalidTokens_spec_example_keeps_all :
    tokensOf (Backend.cleanupInvalidTokens (calmEnv ⟨1, 2, specExampleOutcomes⟩) "u"
        ["A", "B", "C"] specExampleOutcomes (worldOf ["A", "B", "C"])).2 "u"
      = ["A", "B", "C"] := by
  decide

/-- C1, amended: for aligned token and outcome lists in which every failed
outcome carries its error, a reconciliation whose store update succeeds leaves
the user with the initial token set minus exactly the tokens `tokens[i]` whose
outcome `i` has `success = false` and an error code among
`messaging/registration-token-not-registered` and
`messaging/invalid-registration-token`; this holds in both builds. -/
theorem cleanupInvalidTokens_removes_exactly (env : Env) (userId : String)
    (tokens : List String) (responses : List SendResponse) (w : World) (u : UserData)
    (haligned : tokens.length = responses.length) (hcarry : failuresCarryError responses)
    (huser : w.users userId = some u) (hupdate : env.userUpdate = none) :
    ((Backend.cleanupInvalidTokens env userId tokens responses w).1 = .ok () ∧
      ∀ t : String,
        t ∈ tokensOf (Backend.cleanupInvalidTokens env userId tokens responses w).2 userId ↔
          t ∈ tokensOf w userId ∧
          ¬ ∃ (i : Nat) (r : SendResponse) (e : FirebaseError),
              tokens[i]? = some t ∧ responses[i]? = some r ∧ r.success = false ∧
              r.error = some e ∧
              (e.code = "messaging/registration-token-not-registered" ∨
                e.code = "messaging/invalid-registration-token")) ∧
    ((Functions.cleanupInvalidTokens env userId tokens responses w).1 = .ok () ∧
      ∀ t : String,
        t ∈ tokensOf (Functions.cleanupInvalidTokens env userId tokens responses w).2 userId ↔
          t ∈ tokensOf w userId ∧
          ¬ ∃ (i : Nat) (r : SendResponse) (e : FirebaseError),
              tokens[i]? = some t ∧ responses[i]? = some r ∧ r.success = false ∧
              r.error = some e ∧
              (e.code = "messaging/registration-token-not-registered" ∨
                e.code = "messaging/invalid-registration-token")) := by
  obtain ⟨hb1, hb2⟩ := backend_tokensOf_cleanup env userId tokens responses w u
    haligned hcarry huser hupdate
  obtain ⟨hf1, hf2⟩ := functions_tokensOf_cleanup env userId tokens responses w u
    haligned hcarry huser hupdate
  refine ⟨⟨hb1, fun t => ?_⟩, ⟨hf1, fun t => ?_⟩⟩
  · rw [hb2]; exact mem_after_removal tokens responses _ t
  · rw [hf2]; exact mem_after_removal tokens responses _ t

/-- C1, amended, at the example of the specification with the code the gateway
reports: only `"B"` is removed. -/
theorem cleanupInvalidTokens_removes_exactly_witness :
    (["A", "B", "C"].length = gatewayExampleOutcomes.length ∧
      failuresCarryError gatewayExampleOutcomes) ∧
    (Backend.cleanupInvalidTokens (calmEnv ⟨1, 2, gatewayExampleOutcomes⟩) "u"
        ["A", "B", "C"] gatewayExampleOutcomes (worldOf ["A", "B", "C"])).1 = .ok () ∧
    "B" ∉ tokensOf (Backend.cleanupInvalidTokens (calmEnv ⟨1, 2, gatewayExampleOutcomes⟩) "u"
        ["A", "B", "C"] gatewayExampleOutcomes (worldOf ["A", "B", "C"])).2 "u" ∧
    tokensOf (Backend.cleanupInvalidTokens (calmEnv ⟨1, 2, gatewayExampleOutcomes⟩) "u"
        ["A", "B", "C"] gatewayExampleOutcomes (worldOf ["A", "B", "C"])).2 "u" = ["A", "C"] :=
  have h := cleanupInvalidTokens_removes_exactly (calmEnv ⟨1, 2, gatewayExampleOutcomes⟩) "u"
    ["A", "B", "C"] gatewayExampleOutcomes (worldOf ["A", "B", "C"]) ⟨some ["A", "B", "C"]⟩
    (by decide) (by decide) rfl rfl
  ⟨⟨by decide, by decide⟩, h.1.1,
    fun hB => ((h.1.2 "B").1 hB).2
      ⟨1, ⟨false, some ⟨"messaging/invalid-registration-token"⟩⟩,
        ⟨"messaging/invalid-registration-token"⟩, rfl, rfl, rfl, rfl, Or.inr rfl⟩,
    by decide⟩

theorem backend_cleanup_users_idem (env : Env) (userId : String)
    (tokens : List String) (responses : List SendResponse) (w : World) :
    (Backend.cleanupInvalidTokens env userId tokens responses
        (Backend.cleanupInvalidTokens env userId tokens responses w).2).2.users
      = (Backend.cleanupInvalidTokens env userId tokens responses w).2.users := by
  unfold Backend.cleanupInvalidTokens
  cases collectInvalid tokens responses 0 [] with
  | error e => rfl
  | ok inv =>
    by_cases h : inv.length > 0
    · simp only [h, if_true]
      exact usersUpdate_users_idem env userId inv w
    · simp only [h, if_false]

theorem functions_cleanup_world (env : Env) (userId : String)
    (tokens : List String) (responses : List SendResponse) (w : World) :
    (Functions.cleanupInvalidTokens env userId tokens responses w).2
      = (Backend.cleanupInvalidTokens env userId tokens responses w).2 := by
  unfold Functions.cleanupInvalidTokens Backend.cleanupInvalidTokens
  cases collectInvalid tokens responses 0 [] with
  | error e => rfl
  | ok inv =>
    by_cases h : inv.length > 0
    · simp only [h, if_true]
      generalize usersUpdate env userId inv w = res
      rcases res with ⟨_ | _, w1⟩ <;> rfl
    · simp only [h, if_false]

/-- C2: reconciliation is idempotent. In both builds, running
`cleanupInvalidTokens` a second time with the same token list and outcome list,
from the world the first run left, leaves every user's stored token list as the
first run left it; the store's removal takes out every occurrence of each
listed token. -/
theorem cleanupInvalidTokens_idempotent (env : Env) (userId : String)
    (tokens : List String) (responses : List SendResponse) (w : World) :
    (Backend.cleanupInvalidTokens env userId tokens responses
        (Backend.cleanupInvalidTokens env userId tokens responses w).2).2.users
      = (Backend.cleanupInvalidTokens env userId tokens responses w).2.users ∧
    (Functions.cleanupInvalidTokens env userId tokens responses
        (Functions.cleanupInvalidTokens env userId tokens responses w).2).2.users
      = (Functions.cleanupInvalidTokens env userId tokens responses w).2.users := by
  refine ⟨backend_cleanup_users_idem env userId tokens responses w, ?_⟩
  rw [functions_cleanup_world, functions_cleanup_world]
  exact backend_cleanup_users_idem env userId tokens responses w

/-- C3: for aligned token and outcome lists in which every failed outcome
carries its error, `cleanupInvalidTokens` issues exactly one update on the token
store when the filtered subset of permanently invalid tokens is non-empty and
none when it is empty, in both builds; when every outcome is a success it
issues none. -/
theorem cleanupInvalidTokens_removal_ops (env : Env) (userId : String)
    (tokens : List String) (responses : List SendResponse) (w : World)
    (haligned : tokens.length = responses.length) (hcarry : failuresCarryError responses) :
    removalOps (Backend.cleanupInvalidTokens env userId tokens responses w).2
      = removalOps w + (if invalidSubset tokens responses = [] then 0 else 1) ∧
    removalOps (Functions.cleanupInvalidTokens env userId tokens responses w).2
      = removalOps w + (if invalidSubset tokens responses = [] then 0 else 1) ∧
    ((∀ r ∈ responses, r.success = true) →
      removalOps (Backend.cleanupInvalidTokens env userId tokens responses w).2 = removalOps w ∧
      removalOps (Functions.cleanupInvalidTokens env userId tokens responses w).2
        = removalOps w) := by
  have hb : removalOps (Backend.cleanupInvalidTokens env userId tokens responses w).2
      = removalOps w + (if invalidSubset tokens responses = [] then 0 else 1) := by
    rw [backend_cleanup_eq env userId tokens responses w haligned hcarry]
    by_cases h : invalidSubset tokens responses = []
    · simp [h]
    · simp only [h, if_false]
      exact removalOps_usersUpdate env userId _ w
  have hf : removalOps (Functions.cleanupInvalidTokens env userId tokens responses w).2
      = removalOps w + (if invalidSubset tokens responses = [] then 0 else 1) := by
    rw [functions_cleanup_world]; exact hb
  refine ⟨hb, hf, fun hall => ?_⟩
  have h := invalidSubset_all_success tokens responses hall
  rw [hb, hf]
  simp [h]

/-- C3 at the example of the specification: one update for the subset `["B"]`. -/
theorem cleanupInvalidTokens_removal_ops_witness :
    (["A", "B", "C"].length = gatewayExampleOutcomes.length ∧
      failuresCarryError gatewayExampleOutcomes) ∧
    invalidSubset ["A", "B", "C"] gatewayExampleOutcomes = ["B"] ∧
    removalOps (Backend.cleanupInvalidTokens (calmEnv ⟨1, 2, gatewayExampleOutcomes⟩) "u"
        ["A", "B", "C"] gatewayExampleOutcomes (worldOf ["A", "B", "C"])).2 = 1 ∧
    removalOps (Functions.cleanupInvalidTokens (calmEnv ⟨1, 2, gatewayExampleOutcomes⟩) "u"
        ["A", "B", "C"] gatewayExampleOutcomes (worldOf ["A", "B", "C"])).2 = 1 :=
  have h := cleanupInvalidTokens_removal_ops (calmEnv ⟨1, 2, gatewayExampleOutcomes⟩) "u"
    ["A", "B", "C"] gatewayExampleOutcomes (worldOf ["A", "B", "C"]) (by decide) (by decide)
  ⟨⟨by decide, by decide⟩, by decide, h.1.trans (by decide), h.2.1.trans (by decide)⟩

theorem sendOps_emit_userGet (w : World) (uid : String) :
    sendOps (w.emit (.userGet uid)) = sendOps w := by
  simp [sendOps, World.emit, List.countP_append]

theorem empty_tokens_results (env : Env) (w : World) (uid : String) (u : UserData)
    (event : CreateEvent) (notification : NotificationDoc) (request : CallableRequest)
    (auth : AuthData)
    (hread : env.userGet = none) (huser : w.users uid = some u)
    (hempty : u.fcmTokens.getD [] = [])
    (hevent : event.data = some notification) (huid : notification.userId = some uid)
    (hne : uid ≠ "")
    (hauth : request.auth = some auth) (htarget : request.data.targetUserId = some uid)
    (htitle : falsy request.data.title = false) (hbody : falsy request.data.body = false) :
    Backend.sendNotificationOnCreate env event w = (.ok (), w.emit (.userGet uid)) ∧
    Functions.sendNotificationOnCreate env event w = (.ok (), w.emit (.userGet uid)) ∧
    Backend.sendDirectNotification env request w
      = (.ok ⟨true, some "Usuario sin tokens FCM", none, none⟩, w.emit (.userGet uid)) ∧
    Functions.sendDirectNotification env request w
      = (.ok ⟨true, some "Usuario sin tokens FCM", some 0, some 0⟩, w.emit (.userGet uid)) := by
  have hu : falsy (some uid) = false := by simp [falsy, hne]
  refine ⟨?_, ?_, ?_, ?_⟩
  · simp [Backend.sendNotificationOnCreate, Backend.onCreateTry, hevent, hu, huid,
      usersGet, hread, huser, hempty]
  · simp [Functions.sendNotificationOnCreate, Functions.onCreateTry, hevent, hu, huid,
      usersGet, hread, huser, hempty]
  · simp [Backend.sendDirectNotification, Backend.directTry, hauth, hu, htarget,
      usersGet, hread, huser, hempty]
  · simp [Functions.sendDirectNotification, Functions.directTry, hauth, hu, htarget,
      usersGet, hread, huser, hempty, htitle, hbody]

/-- C4, the claim as stated fails: the target user `"u"` exists with an empty
token list, yet an unauthenticated direct send is rejected in both builds, and
in the functions build so is an authenticated one that carries no title. -/
theorem sendDirectNotification_empty_tokens_rejected :
    (Backend.sendDirectNotification (calmEnv ⟨0, 0, []⟩)
        ⟨plainData (some "u") (some "t") (some "b"), none⟩ (worldOf [])).1
      = .error "El usuario debe estar autenticado" ∧
    (Functions.sendDirectNotification (calmEnv ⟨0, 0, []⟩)
        ⟨plainData (some "u") (some "t") (some "b"), none⟩ (worldOf [])).1
      = .error "El usuario debe estar autenticado" ∧
    (Functions.sendDirectNotification (calmEnv ⟨0, 0, []⟩)
        ⟨plainData (some "u") none (some "b"), some ⟨"caller"⟩⟩ (worldOf [])).1
      = .error "Error interno del servidor: title y body son requeridos" :=
  ⟨rfl, rfl, by rfl⟩

/-- C4, amended: when the read of the target user succeeds and the user exists
with an empty or missing token list, the on-create trigger for a record that
names this user, and an authenticated direct send that names this user and
carries a title and a body, never invoke the push send and finish without an
error, in both builds: the trigger returns normally and the direct send returns
a response with `success = true`. -/
theorem empty_tokens_skip_send (env : Env) (w : World) (uid : String) (u : UserData)
    (event : CreateEvent) (notification : NotificationDoc) (request : CallableRequest)
    (auth : AuthData)
    (hread : env.userGet = none) (huser : w.users uid = some u)
    (hempty : u.fcmTokens.getD [] = [])
    (hevent : event.data = some notification) (huid : notification.userId = some uid)
    (hne : uid ≠ "")
    (hauth : request.auth = some auth) (htarget : request.data.targetUserId = some uid)
    (htitle : falsy request.data.title = false) (hbody : falsy request.data.body = false) :
    ((Backend.sendNotificationOnCreate env event w).1 = .ok () ∧
      sendOps (Backend.sendNotificationOnCreate env event w).2 = sendOps w) ∧
    ((Functions.sendNotificationOnCreate env event w).1 = .ok () ∧
      sendOps (Functions.sendNotificationOnCreate env event w).2 = sendOps w) ∧
    ((∃ r : DirectResponse,
        (Backend.sendDirectNotification env request w).1 = .ok r ∧ r.success = true) ∧
      sendOps (Backend.sendDirectNotification env request w).2 = sendOps w) ∧
    ((∃ r : DirectResponse,
        (Functions.sendDirectNotification env request w).1 = .ok r ∧ r.success = true) ∧
      sendOps (Functions.sendDirectNotification env request w).2 = sendOps w) := by
  obtain ⟨h1, h2, h3, h4⟩ := empty_tokens_results env w uid u event notification request auth
    hread huser hempty hevent huid hne hauth htarget htitle hbody
  rw [h1, h2, h3, h4]
  exact ⟨⟨rfl, sendOps_emit_userGet w uid⟩, ⟨rfl, sendOps_emit_userGet w uid⟩,
    ⟨⟨_, rfl, rfl⟩, sendOps_emit_userGet w uid⟩, ⟨⟨_, rfl, rfl⟩, sendOps_emit_userGet w uid⟩⟩

/-- C4, amended, at a user `"u"` whose token field is missing. -/
theorem empty_tokens_skip_send_witness :
    (falsy (some "hello") = false ∧ "u" ≠ "") ∧
    (Backend.sendNotificationOnCreate (calmEnv ⟨0, 0, []⟩) ⟨some (plainDoc (some "u")), "n1"⟩
        { users := fun k => if k = "u" then some ⟨none⟩ else none, record := [], trace := [] }).1
      = .ok () ∧
    ∃ r : DirectResponse,
      (Functions.sendDirectNotification (calmEnv ⟨0, 0, []⟩)
          ⟨plainData (some "u") (some "hello") (some "world"), some ⟨"caller"⟩⟩
          { users := fun k => if k = "u" then some ⟨none⟩ else none, record := [],
            trace := [] }).1 = .ok r ∧ r.success = true :=
  have h := empty_tokens_skip_send (calmEnv ⟨0, 0, []⟩)
    { users := fun k => if k = "u" then some ⟨none⟩ else none, record := [], trace := [] }
    "u" ⟨none⟩ ⟨some (plainDoc (some "u")), "n1"⟩ (plainDoc (some "u"))
    ⟨plainData (some "u") (some "hello") (some "world"), some ⟨"caller"⟩⟩ ⟨"caller"⟩
    rfl rfl rfl rfl rfl (by decide) rfl rfl (by decide) (by decide)
  ⟨⟨by decide, by decide⟩, h.1.1, h.2.2.2.1⟩

/-- C5: an authenticated direct send whose `targetUserId` is omitted or empty
is rejected with an error in both builds, and the world it leaves is the world
it started from: no user read, no unread query, no token update, no send. -/
theorem sendDirectNotification_missing_target (env : Env) (request : CallableRequest)
    (w : World) (auth : AuthData)
    (hauth : request.auth = some auth) (htarget : falsy request.data.targetUserId = true) :
    Backend.sendDirectNotification env request w
      = (.error "Error interno del servidor", w) ∧
    Functions.sendDirectNotification env request w
      = (.error "Error interno del servidor: targetUserId es requerido", w) := by
  constructor
  · simp [Backend.sendDirectNotification, Backend.directTry, hauth, htarget]
  · simp [Functions.sendDirectNotification, Functions.directTry, hauth, htarget]

/-- C5 at a request without `targetUserId`, on a world that holds a user. -/
theorem sendDirectNotification_missing_target_witness :
    falsy (plainData none (some "t") (some "b")).targetUserId = true ∧
    Backend.sendDirectNotification (calmEnv ⟨0, 0, []⟩)
        ⟨plainData none (some "t") (some "b"), some ⟨"caller"⟩⟩ (worldOf ["A"])
      = (.error "Error interno del servidor", worldOf ["A"]) ∧
    Functions.sendDirectNotification (calmEnv ⟨0, 0, []⟩)
        ⟨plainData none (some "t") (some "b"), some ⟨"caller"⟩⟩ (worldOf ["A"])
      = (.error "Error interno del servidor: targetUserId es requerido", worldOf ["A"]) :=
  ⟨by decide,
    sendDirectNotification_missing_target (calmEnv ⟨0, 0, []⟩)
      ⟨plainData none (some "t") (some "b"), some ⟨"caller"⟩⟩ (worldOf ["A"]) ⟨"caller"⟩
      rfl (by decide)⟩

theorem backend_onCreate_never_raises (env : Env) (event : CreateEvent) (w : World) :
    (Backend.sendNotificationOnCreate env event w).1 = .ok () := by
  unfold Backend.sendNotificationOnCreate
  cases event.data with
  | none => rfl
  | some snapshot =>
    simp only
    generalize Backend.onCreateTry env event snapshot w = res
    rcases res with ⟨_ | _, w1⟩ <;> rfl

theorem functions_onCreate_raises_only_marker (env : Env) (event : CreateEvent) (w : World)
    (hmarker : env.markerUpdate = none) :
    (Functions.sendNotificationOnCreate env event w).1 = .ok () := by
  unfold Functions.sendNotificationOnCreate
  cases event.data with
  | none => rfl
  | some snapshot =>
    simp only
    generalize Functions.onCreateTry env event snapshot w = res
    rcases res with ⟨_ | _, w1⟩ <;> simp [recordUpdate, hmarker]

/-- C6, the defect: the backend trigger never lets an error escape, whatever
fails; the functions trigger awaits the failure-marker update inside its
`catch`, so during a store outage (the user read throws, then the marker update
throws) the error escapes to the platform. -/
theorem sendNotificationOnCreate_marker_failure_escapes :
    (∀ (env : Env) (event : CreateEvent) (w : World),
      (Backend.sendNotificationOnCreate env event w).1 = .ok ()) ∧
    (Functions.sendNotificationOnCreate outageEnv ⟨some (plainDoc (some "u")), "n1"⟩
        (worldOf ["A"])).1 = .error "UNAVAILABLE" ∧
    (Functions.sendNotificationOnCreate outageEnv ⟨some (plainDoc (some "u")), "n1"⟩
        (worldOf ["A"])).2.trace
      = [.userGet "u", .recordUpdate ⟨false, none, none, some "UNAVAILABLE"⟩] :=
  ⟨backend_onCreate_never_raises, rfl, rfl⟩

/-- C8, the defect: the user `"u"` holds `["A", "B", "C"]` and the send reports
two failures, one of them the permanently invalid `"B"`. The backend direct
send returns the counts and issues no removal, so `"B"` stays; the functions
direct send, on the same input, returns the same counts and removes `"B"`. -/
theorem sendDirectNotification_backend_skips_cleanup :
    (Backend.sendDirectNotification (calmEnv ⟨1, 2, gatewayExampleOutcomes⟩)
        ⟨plainData (some "u") (some "t") (some "b"), some ⟨"caller"⟩⟩
        (worldOf ["A", "B", "C"])).1 = .ok ⟨true, none, some 1, some 2⟩ ∧
    removalOps (Backend.sendDirectNotification (calmEnv ⟨1, 2, gatewayExampleOutcomes⟩)
        ⟨plainData (some "u") (some "t") (some "b"), some ⟨"caller"⟩⟩
        (worldOf ["A", "B", "C"])).2 = 0 ∧
    tokensOf (Backend.sendDirectNotification (calmEnv ⟨1, 2, gatewayExampleOutcomes⟩)
        ⟨plainData (some "u") (some "t") (some "b"), some ⟨"caller"⟩⟩
        (worldOf ["A", "B", "C"])).2 "u" = ["A", "B", "C"] ∧
    (Functions.sendDirectNotification (calmEnv ⟨1, 2, gatewayExampleOutcomes⟩)
        ⟨plainData (some "u") (some "t") (some "b"), some ⟨"caller"⟩⟩
        (worldOf ["A", "B", "C"])).1 = .ok ⟨true, none, some 1, some 2⟩ ∧
    tokensOf (Functions.sendDirectNotification (calmEnv ⟨1, 2, gatewayExampleOutcomes⟩)
        ⟨plainData (some "u") (some "t") (some "b"), some ⟨"caller"⟩⟩
        (worldOf ["A", "B", "C"])).2 "u" = ["A", "C"] :=
  ⟨rfl, rfl, rfl, rfl, rfl⟩

/-- C9, the defect: an authenticated request that names the existing user `"u"`
and carries neither title nor body. The backend direct send has no check of
these fields: it issues the push send and answers success. The functions direct
send rejects the same request before any send. -/
theorem sendDirectNotification_backend_sends_without_title :
    (Backend.sendDirectNotification (calmEnv ⟨1, 0, [⟨true, none⟩]⟩)
        ⟨plainData (some "u") none none, some ⟨"caller"⟩⟩ (worldOf ["A"])).1
      = .ok ⟨true, none, some 1, some 0⟩ ∧
    sendOps (Backend.sendDirectNotification (calmEnv ⟨1, 0, [⟨true, none⟩]⟩)
        ⟨plainData (some "u") none none, some ⟨"caller"⟩⟩ (worldOf ["A"])).2 = 1 ∧
    (Functions.sendDirectNotification (calmEnv ⟨1, 0, [⟨true, none⟩]⟩)
        ⟨plainData (some "u") none none, some ⟨"caller"⟩⟩ (worldOf ["A"])).1
      = .error "Error interno del servidor: title y body son requeridos" ∧
    sendOps (Functions.sendDirectNotification (calmEnv ⟨1, 0, [⟨true, none⟩]⟩)
        ⟨plainData (some "u") none none, some ⟨"caller"⟩⟩ (worldOf ["A"])).2 = 0 :=
  ⟨rfl, rfl, by rfl, rfl⟩

/-- C10, the defect: in the backend build a request without `targetUserId` and
a request for the absent user `"ghost"` throw different messages inside the
`try`, and the `catch` replaces both by the same message, so the caller cannot
tell them apart; the functions build keeps the two messages distinct. -/
theorem sendDirectNotification_backend_same_message :
    ((Backend.directTry (calmEnv ⟨0, 0, []⟩)
          ⟨plainData none (some "t") (some "b"), some ⟨"caller"⟩⟩ (worldOf ["A"])).1
        = .error "targetUserId es requerido" ∧
      (Backend.directTry (calmEnv ⟨0, 0, []⟩)
          ⟨plainData (some "ghost") (some "t") (some "b"), some ⟨"caller"⟩⟩ (worldOf ["A"])).1
        = .error "Usuario no encontrado") ∧
    ((Backend.sendDirectNotification (calmEnv ⟨0, 0, []⟩)
          ⟨plainData none (some "t") (some "b"), some ⟨"caller"⟩⟩ (worldOf ["A"])).1
        = .error "Error interno del servidor" ∧
      (Backend.sendDirectNotification (calmEnv ⟨0, 0, []⟩)
          ⟨plainData (some "ghost") (some "t") (some "b"), some ⟨"caller"⟩⟩ (worldOf ["A"])).1
        = .error "Error interno del servidor") ∧
    ((Functions.sendDirectNotification (calmEnv ⟨0, 0, []⟩)
          ⟨plainData none (some "t") (some "b"), some ⟨"caller"⟩⟩ (worldOf ["A"])).1
        = .error "Error interno del servidor: targetUserId es requerido" ∧
      (Functions.sendDirectNotification (calmEnv ⟨0, 0, []⟩)
          ⟨plainData (some "ghost") (some "t") (some "b"), some ⟨"caller"⟩⟩ (worldOf ["A"])).1
        = .error "Error interno del servidor: Usuario de destino no encontrado") :=
  ⟨⟨rfl, rfl⟩, ⟨rfl, rfl⟩, ⟨by rfl, by rfl⟩⟩

theorem functions_cleanup_fst (env : Env) (userId : String) (tokens : List String)
    (responses : List SendResponse) (w : World) :
    (Functions.cleanupInvalidTokens env userId tokens responses w).1
      = match collectInvalid tokens responses 0 [] with
        | .error e => .error e
        | .ok _ => .ok () := by
  unfold Functions.cleanupInvalidTokens
  cases collectInvalid tokens responses 0 [] with
  | error e => rfl
  | ok inv =>
    by_cases h : inv.length > 0
    · simp only [h, if_true]
      generalize usersUpdate env userId inv w = res
      rcases res with ⟨_ | _, w1⟩ <;> rfl
    · simp only [h, if_false]

theorem recordUpdate_fst (fault : Option String) (patch : RecordPatch) (w w2 : World) :
    (recordUpdate fault patch w).1 = (recordUpdate fault patch w2).1 := by
  unfold recordUpdate
  cases fault <;> rfl

theorem functions_onCreateTry_fst (env env2 : Env) (event : CreateEvent)
    (n : NotificationDoc) (w : World)
    (hget : env2.userGet = env.userGet) (hunread : env2.unread = env.unread)
    (hsend : env2.send = env.send) (hrec : env2.recordUpdate = env.recordUpdate) :
    (Functions.onCreateTry env2 event n w).1 = (Functions.onCreateTry env event n w).1 := by
  unfold Functions.onCreateTry
  by_cases hf : falsy n.userId = true
  · simp [hf]
  · simp only [hf, if_false, usersGet, sendEachForMulticast, getUnreadCount, hget, hunread,
      hsend, hrec]
    cases env.userGet with
    | some e => rfl
    | none =>
      simp only
      cases w.users (n.userId.getD "") with
      | none => rfl
      | some u =>
        simp only
        by_cases hl : (u.fcmTokens.getD []).length = 0
        · simp [hl]
        · simp only [hl, if_false]
          cases env.send with
          | error e => rfl
          | ok response =>
            simp only
            by_cases hc : response.failureCount > 0
            · simp only [hc, if_true]
              cases env.unread <;> simp only
              all_goals
                generalize hr2 : Functions.cleanupInvalidTokens env2 _ _ _ _ = res2
                generalize hr1 : Functions.cleanupInvalidTokens env _ _ _ _ = res1
                have e2 := congrArg Prod.fst hr2
                have e1 := congrArg Prod.fst hr1
                rw [functions_cleanup_fst] at e1 e2
                obtain ⟨r1, w1⟩ := res1
                obtain ⟨r2, w2⟩ := res2
                have hr : r2 = r1 := by simpa using e2.symm.trans e1
                subst hr
                cases r2 with
                | error e => simp
                | ok v => simpa using recordUpdate_fst _ _ _ _
            · simp only [hc, if_false]

theorem functions_onCreate_fst (env env2 : Env) (event : CreateEvent) (w : World)
    (hget : env2.userGet = env.userGet) (hunread : env2.unread = env.unread)
    (hsend : env2.send = env.send) (hrec : env2.recordUpdate = env.recordUpdate)
    (hmark : env2.markerUpdate = env.markerUpdate) :
    (Functions.sendNotificationOnCreate env2 event w).1
      = (Functions.sendNotificationOnCreate env event w).1 := by
  unfold Functions.sendNotificationOnCreate
  cases event.data with
  | none => rfl
  | some snapshot =>
    simp only [hmark]
    have h := functions_onCreateTry_fst env env2 event snapshot w hget hunread hsend hrec
    generalize Functions.onCreateTry env2 event snapshot w = res2 at h ⊢
    generalize Functions.onCreateTry env event snapshot w = res1 at h ⊢
    obtain ⟨r1, w1⟩ := res1
    obtain ⟨r2, w2⟩ := res2
    simp only at h
    subst h
    cases r2 with
    | error e => simpa using recordUpdate_fst _ _ _ _
    | ok v => rfl

theorem functions_directTry_fst (env env2 : Env) (request : CallableRequest) (auth : AuthData)
    (w : World)
    (hget : env2.userGet = env.userGet) (hunread : env2.unread = env.unread)
    (hsend : env2.send = env.send) :
    (Functions.directTry env2 request auth w).1 = (Functions.directTry env request auth w).1 := by
  unfold Functions.directTry
  by_cases hf : falsy request.data.targetUserId = true
  · simp [hf]
  · by_cases hv : (falsy request.data.title || falsy request.data.body) = true
    · simp [hf, hv]
    · simp only [hf, hv, if_false, usersGet, sendEachForMulticast, getUnreadCount, hget,
        hunread, hsend]
      cases env.userGet with
      | some e => rfl
      | none =>
        simp only
        cases w.users (request.data.targetUserId.getD "") with
        | none => rfl
        | some u =>
          simp only
          by_cases hl : (u.fcmTokens.getD []).length = 0
          · simp [hl]
          · simp only [hl, if_false]
            cases env.send with
            | error e => rfl
            | ok response =>
              simp only
              by_cases hc : response.failureCount > 0
              · simp only [hc, if_true]
                cases env.unread <;> simp only
                all_goals
                  generalize hr2 : Functions.cleanupInvalidTokens env2 _ _ _ _ = res2
                  generalize hr1 : Functions.cleanupInvalidTokens env _ _ _ _ = res1
                  have e2 := congrArg Prod.fst hr2
                  have e1 := congrArg Prod.fst hr1
                  rw [functions_cleanup_fst] at e1 e2
                  obtain ⟨r1, w1⟩ := res1
                  obtain ⟨r2, w2⟩ := res2
                  have hr : r2 = r1 := by simpa using e2.symm.trans e1
                  subst hr
                  cases r2 <;> simp
              · simp only [hc, if_false]

theorem functions_direct_fst (env env2 : Env) (request : CallableRequest) (w : World)
    (hget : env2.userGet = env.userGet) (hunread : env2.unread = env.unread)
    (hsend : env2.send = env.send) :
    (Functions.sendDirectNotification env2 request w).1
      = (Functions.sendDirectNotification env request w).1 := by
  unfold Functions.sendDirectNotification
  cases request.auth with
  | none => rfl
  | some auth =>
    simp only
    have h := functions_directTry_fst env env2 request auth w hget hunread hsend
    generalize Functions.directTry env2 request auth w = res2 at h ⊢
    generalize Functions.directTry env request auth w = res1 at h ⊢
    obtain ⟨r1, w1⟩ := res1
    obtain ⟨r2, w2⟩ := res2
    simp only at h
    subst h
    cases r2 <;> rfl

theorem backend_direct_env (env env2 : Env) (request : CallableRequest) (w : World)
    (hget : env2.userGet = env.userGet) (hsend : env2.send = env.send) :
    Backend.sendDirectNotification env2 request w
      = Backend.sendDirectNotification env request w := by
  unfold Backend.sendDirectNotification Backend.directTry
  simp only [usersGet, sendEachForMulticast, hget, hsend]

theorem collectInvalid_ok (tokens : List String) :
    ∀ (rs : List SendResponse) (i : Nat) (acc : List (Option String)),
      failuresCarryError rs → ∃ l, collectInvalid tokens rs i acc = .ok l := by
  intro rs
  induction rs with
  | nil => intro i acc _; exact ⟨acc, rfl⟩
  | cons r rest ih =>
    intro i acc hwf
    have hrest : failuresCarryError rest := fun x hx => hwf x (List.mem_cons_of_mem _ hx)
    have hr := hwf r (List.mem_cons_self _ _)
    unfold collectInvalid
    cases hs : r.success with
    | true => simpa using ih (i + 1) acc hrest
    | false =>
      have := hr hs
      cases he : r.error with
      | none => simp [he] at this
      | some e =>
        simp only [Bool.not_false, if_true]
        split
        · exact ih (i + 1) _ hrest
        · exact ih (i + 1) _ hrest

/-- C7, the claim as stated fails in the backend build: there
`cleanupInvalidTokens` awaits the update with no handler, so when the update
fails the function itself raises. -/
theorem backend_cleanupInvalidTokens_raises :
    (Backend.cleanupInvalidTokens
        ((calmEnv ⟨1, 2, gatewayExampleOutcomes⟩).withUserUpdate (some "UNAVAILABLE")) "u"
        ["A", "B", "C"] gatewayExampleOutcomes (worldOf ["A", "B", "C"])).1
      = .error "UNAVAILABLE" :=
  rfl

/-- C7, amended: a failing token-store update never fails the calling dispatch.
In the functions build `cleanupInvalidTokens` itself completes without raising
when the update throws (for outcome lists whose failures carry their error); in
the backend build it re-raises, and its only caller, the on-create trigger,
catches the error. In each build the on-create trigger and the direct send end
with the same result when the update throws `e` as when the platform lets it
through. -/
theorem removal_failure_never_fails_dispatch (env : Env) (e : String) (userId : String)
    (tokens : List String) (responses : List SendResponse) (w : World)
    (event : CreateEvent) (request : CallableRequest)
    (hcarry : failuresCarryError responses) :
    (Functions.cleanupInvalidTokens (env.withUserUpdate (some e)) userId tokens responses w).1
      = .ok () ∧
    (Backend.sendNotificationOnCreate (env.withUserUpdate (some e)) event w).1
      = (Backend.sendNotificationOnCreate (env.withUserUpdate none) event w).1 ∧
    (Functions.sendNotificationOnCreate (env.withUserUpdate (some e)) event w).1
      = (Functions.sendNotificationOnCreate (env.withUserUpdate none) event w).1 ∧
    (Backend.sendDirectNotification (env.withUserUpdate (some e)) request w).1
      = (Backend.sendDirectNotification (env.withUserUpdate none) request w).1 ∧
    (Functions.sendDirectNotification (env.withUserUpdate (some e)) request w).1
      = (Functions.sendDirectNotification (env.withUserUpdate none) request w).1 := by
  refine ⟨?_, ?_, ?_, ?_, ?_⟩
  · obtain ⟨l, hl⟩ := collectInvalid_ok tokens responses 0 [] hcarry
    rw [functions_cleanup_fst, hl]
  · rw [backend_onCreate_never_raises, backend_onCreate_never_raises]
  · exact functions_onCreate_fst (env.withUserUpdate none) (env.withUserUpdate (some e))
      event w rfl rfl rfl rfl rfl
  · rw [backend_direct_env (env.withUserUpdate none) (env.withUserUpdate (some e)) request w
      rfl rfl]
  · exact functions_direct_fst (env.withUserUpdate none) (env.withUserUpdate (some e))
      request w rfl rfl rfl

/-- C7, amended, at the example of the specification with a failing update. -/
theorem removal_failure_never_fails_dispatch_witness :
    failuresCarryError gatewayExampleOutcomes ∧
    (Functions.cleanupInvalidTokens
        ((calmEnv ⟨1, 2, gatewayExampleOutcomes⟩).withUserUpdate (some "UNAVAILABLE")) "u"
        ["A", "B", "C"] gatewayExampleOutcomes (worldOf ["A", "B", "C"])).1 = .ok () ∧
    (Functions.sendDirectNotification
        ((calmEnv ⟨1, 2, gatewayExampleOutcomes⟩).withUserUpdate (some "UNAVAILABLE"))
        ⟨plainData (some "u") (some "t") (some "b"), some ⟨"caller"⟩⟩
        (worldOf ["A", "B", "C"])).1
      = (Functions.sendDirectNotification
        ((calmEnv ⟨1, 2, gatewayExampleOutcomes⟩).withUserUpdate none)
        ⟨plainData (some "u") (some "t") (some "b"), some ⟨"caller"⟩⟩
        (worldOf ["A", "B", "C"])).1 :=
  have h := removal_failure_never_fails_dispatch (calmEnv ⟨1, 2, gatewayExampleOutcomes⟩)
    "UNAVAILABLE" "u" ["A", "B", "C"] gatewayExampleOutcomes (worldOf ["A", "B", "C"])
    ⟨some (plainDoc (some "u")), "n1"⟩
    ⟨plainData (some "u") (some "t") (some "b"), some ⟨"caller"⟩⟩ (by decide)
  ⟨by decide, h.1, h.2.2.2.2⟩

theorem functions_direct_reconciles (env : Env) (request : CallableRequest) (w : World)
    (auth : AuthData) (uid : String) (u : UserData) (response : BatchResponse)
    (hauth : request.auth = some auth) (htarget : request.data.targetUserId = some uid)
    (hne : uid ≠ "")
    (htitle : falsy request.data.title = false) (hbody : falsy request.data.body = false)
    (hread : env.userGet = none) (huser : w.users uid = some u)
    (htokens : u.fcmTokens.getD [] ≠ [])
    (hsend : env.send = .ok response) (hfail : response.failureCount > 0)
    (haligned : (u.fcmTokens.getD []).length = response.responses.length)
    (hcarry : failuresCarryError response.responses) (hupdate : env.userUpdate = none) :
    (Functions.sendDirectNotification env request w).1
      = .ok ⟨true, none, some response.successCount, some response.failureCount⟩ ∧
    tokensOf (Functions.sendDirectNotification env request w).2 uid
      = arrayRemove ((invalidSubset (u.fcmTokens.getD []) response.responses).map some)
          (u.fcmTokens.getD []) := by
  have hu : falsy (some uid) = false := by simp [falsy, hne]
  have hlen : ¬ (u.fcmTokens.getD []).length = 0 := by
    intro h; exact htokens (List.length_eq_zero.mp h)
  unfold Functions.sendDirectNotification Functions.directTry
  simp only [hauth, htarget, hu, htitle, hbody, usersGet, hread, huser, hlen,
    sendEachForMulticast, hsend, hfail, if_true, if_false, Bool.or_self, Bool.false_eq_true,
    Option.getD_some]
  rw [functions_cleanup_eq env uid _ _ _ haligned hcarry]
  by_cases hinv : invalidSubset (u.fcmTokens.getD []) response.responses = []
  · simp [hinv, arrayRemove_nil, tokensOf, getUnreadCount, World.emit, huser]
    cases env.unread <;> simp [huser]
  · simp only [hinv, if_false, true_and]
    have h := tokensOf_usersUpdate env uid
      ((invalidSubset (u.fcmTokens.getD []) response.responses).map some)
      (sendEachForMulticast env
        { title := request.data.title, body := request.data.body,
          data :=
            [("type", orDefault request.data.type "direct_message"),
             ("postId", orDefault request.data.postId ""),
             ("fromUserId", orDefault request.data.fromUserId auth.uid),
             ("fromUserName", orDefault request.data.fromUserName ""),
             ("actionUrl", orDefault request.data.actionUrl ""),
             ("priority", orDefault request.data.priority "medium")],
          android := some (androidHints (some "#2196F3")),
          apns := some { sound := "default",
                         badge := (getUnreadCount env uid (w.emit (.userGet uid))).1,
                         alert := none },
          tokens := u.fcmTokens.getD [] }
        (getUnreadCount env uid (w.emit (.userGet uid))).2).2 u
      (by unfold sendEachForMulticast getUnreadCount
          cases env.unread <;> simpa [World.emit] using huser)
      hupdate
    have ht : tokensOf (sendEachForMulticast env
        { title := request.data.title, body := request.data.body,
          data :=
            [("type", orDefault request.data.type "direct_message"),
             ("postId", orDefault request.data.postId ""),
             ("fromUserId", orDefault request.data.fromUserId auth.uid),
             ("fromUserName", orDefault request.data.fromUserName ""),
             ("actionUrl", orDefault request.data.actionUrl ""),
             ("priority", orDefault request.data.priority "medium")],
          android := some (androidHints (some "#2196F3")),
          apns := some { sound := "default",
                         badge := (getUnreadCount env uid (w.emit (.userGet uid))).1,
                         alert := none },
          tokens := u.fcmTokens.getD [] }
        (getUnreadCount env uid (w.emit (.userGet uid))).2).2 uid = u.fcmTokens.getD [] := by
      unfold sendEachForMulticast getUnreadCount tokensOf
      cases env.unread <;> simp [World.emit, huser]
    rw [ht] at h
    exact h.2

theorem functions_direct_rejects_missing (env : Env) (request : CallableRequest) (w : World)
    (auth : AuthData) (hauth : request.auth = some auth)
    (hmissing : falsy request.data.targetUserId = true ∨ falsy request.data.title = true ∨
      falsy request.data.body = true) :
    Functions.sendDirectNotification env request w
        = (.error "Error interno del servidor: targetUserId es requerido", w) ∨
    Functions.sendDirectNotification env request w
        = (.error "Error interno del servidor: title y body son requeridos", w) := by
  unfold Functions.sendDirectNotification Functions.directTry
  by_cases ht : falsy request.data.targetUserId = true
  · left; simp [hauth, ht]
  · right
    have hv : (falsy request.data.title || falsy request.data.body) = true := by
      rcases hmissing with h | h | h
      · exact absurd h ht
      · simp [h]
      · simp [h]
    simp [hauth, ht, hv]

theorem functions_direct_rejects_absent_user (env : Env) (request : CallableRequest) (w : World)
    (auth : AuthData) (uid : String) (hauth : request.auth = some auth)
    (htarget : request.data.targetUserId = some uid) (hne : uid ≠ "")
    (htitle : falsy request.data.title = false) (hbody : falsy request.data.body = false)
    (hread : env.userGet = none) (huser : w.users uid = none) :
    (Functions.sendDirectNotification env request w).1
      = .error "Error interno del servidor: Usuario de destino no encontrado" := by
  have hu : falsy (some uid) = false := by simp [falsy, hne]
  simp [Functions.sendDirectNotification, Functions.directTry, hauth, htarget, hu, htitle,
    hbody, usersGet, hread, huser]

theorem functions_direct_zero_counts (env : Env) (request : CallableRequest)
    (w : World) (auth : AuthData) (uid : String) (u : UserData)
    (hauth : request.auth = some auth) (htarget : request.data.targetUserId = some uid)
    (hne : uid ≠ "")
    (htitle : falsy request.data.title = false) (hbody : falsy request.data.body = false)
    (hread : env.userGet = none) (huser : w.users uid = some u)
    (hempty : u.fcmTokens.getD [] = []) :
    (Functions.sendDirectNotification env request w).1
      = .ok ⟨true, some "Usuario sin tokens FCM", some 0, some 0⟩ := by
  obtain ⟨_, _, _, hf⟩ := empty_tokens_results env w uid u ⟨some (plainDoc (some uid)), ""⟩
    (plainDoc (some uid)) request auth hread huser hempty rfl rfl hne hauth htarget htitle hbody
  rw [hf]

/-- C11, the defect: an authenticated request with title and body for the
existing user `"u"`, who has zero tokens. The backend direct send answers
success with a message and no counts: `successCount` and `failureCount` are
absent, not 0. The functions direct send, on the same input, answers success
with `successCount = 0` and `failureCount = 0`. -/
theorem sendDirectNotification_backend_no_counts :
    (Backend.sendDirectNotification (calmEnv ⟨0, 0, []⟩)
        ⟨plainData (some "u") (some "t") (some "b"), some ⟨"caller"⟩⟩ (worldOf [])).1
      = .ok ⟨true, some "Usuario sin tokens FCM", none, none⟩ ∧
    (Functions.sendDirectNotification (calmEnv ⟨0, 0, []⟩)
        ⟨plainData (some "u") (some "t") (some "b"), some ⟨"caller"⟩⟩ (worldOf [])).1
      = .ok ⟨true, some "Usuario sin tokens FCM", some 0, some 0⟩ :=
  ⟨rfl, rfl⟩

theorem usersUpdate_record (env : Env) (uid : String) (remove : List (Option String))
    (w : World) : (usersUpdate env uid remove w).2.record = w.record := by
  unfold usersUpdate
  cases env.userUpdate with
  | some e => rfl
  | none => cases w.users uid <;> rfl

theorem usersUpdate_recordOps (env : Env) (uid : String) (remove : List (Option String))
    (w : World) : recordOps (usersUpdate env uid remove w).2 = recordOps w := by
  unfold usersUpdate
  cases env.userUpdate with
  | some e => simp [World.emit, recordOps, List.countP_append]
  | none => cases w.users uid <;> simp [World.emit, recordOps, List.countP_append]

theorem backend_cleanup_record (env : Env) (userId : String) (tokens : List String)
    (responses : List SendResponse) (w : World) :
    (Backend.cleanupInvalidTokens env userId tokens responses w).2.record = w.record ∧
    recordOps (Backend.cleanupInvalidTokens env userId tokens responses w).2 = recordOps w := by
  unfold Backend.cleanupInvalidTokens
  cases collectInvalid tokens responses 0 [] with
  | error e => exact ⟨rfl, rfl⟩
  | ok inv =>
    by_cases h : inv.length > 0
    · simp only [h, if_true]
      exact ⟨usersUpdate_record env userId inv w, usersUpdate_recordOps env userId inv w⟩
    · simp only [h, if_false, and_self]

theorem backend_onCreateTry_record (env : Env) (event : CreateEvent) (n : NotificationDoc)
    (w : World) :
    (Backend.onCreateTry env event n w).2.record = w.record ∧
    recordOps (Backend.onCreateTry env event n w).2 = recordOps w := by
  unfold Backend.onCreateTry
  by_cases hf : falsy n.userId = true
  · simp [hf]
  · simp only [hf, if_false, usersGet, sendEachForMulticast, getUnreadCount]
    cases env.userGet with
    | some e => simp [World.emit, recordOps, List.countP_append]
    | none =>
      simp only
      cases w.users (n.userId.getD "") with
      | none => simp [World.emit, recordOps, List.countP_append]
      | some u =>
        simp only
        by_cases hl : (u.fcmTokens.getD []).length = 0
        · simp [hl, World.emit, recordOps, List.countP_append]
        · simp only [hl, if_false]
          cases env.send with
          | error e => cases env.unread <;> simp [World.emit, recordOps, List.countP_append]
          | ok response =>
            simp only
            by_cases hc : response.failureCount > 0
            · simp only [hc, if_true]
              cases env.unread <;> simp only
              all_goals
                refine ⟨(backend_cleanup_record _ _ _ _ _).1.trans ?_,
                  (backend_cleanup_record _ _ _ _ _).2.trans ?_⟩
                · rfl
                · simp [World.emit, recordOps, List.countP_append]
            · simp only [hc, if_false]
              cases env.unread <;> simp [World.emit, recordOps, List.countP_append]

theorem backend_onCreate_record (env : Env) (event : CreateEvent) (w : World) :
    (Backend.sendNotificationOnCreate env event w).2.record = w.record ∧
    recordOps (Backend.sendNotificationOnCreate env event w).2 = recordOps w := by
  unfold Backend.sendNotificationOnCreate
  cases event.data with
  | none => exact ⟨rfl, rfl⟩
  | some snapshot =>
    simp only
    have h := backend_onCreateTry_record env event snapshot w
    generalize Backend.onCreateTry env event snapshot w = res at h ⊢
    rcases res with ⟨_ | _, w1⟩ <;> exact h

theorem functions_onCreateTry_error_record (env : Env) (event : CreateEvent)
    (n : NotificationDoc) (w : World) (e : String)
    (hraise : (Functions.onCreateTry env event n w).1 = .error e) :
    (Functions.onCreateTry env event n w).2.record = w.record := by
  revert hraise
  unfold Functions.onCreateTry
  by_cases hf : falsy n.userId = true
  · simp [hf]
  · simp only [hf, if_false, usersGet, sendEachForMulticast, getUnreadCount]
    cases env.userGet with
    | some e1 => intro _; rfl
    | none =>
      simp only
      cases w.users (n.userId.getD "") with
      | none => intro _; rfl
      | some u =>
        simp only
        by_cases hl : (u.fcmTokens.getD []).length = 0
        · simp [hl]
        · simp only [hl, if_false]
          cases env.send with
          | error e1 => intro _; cases env.unread <;> rfl
          | ok response =>
            simp only
            by_cases hc : response.failureCount > 0
            · simp only [hc, if_true]
              cases env.unread <;> simp only
              all_goals
                generalize hr : Functions.cleanupInvalidTokens env _ _ _ _ = res
                have hrec := congrArg (fun p => p.2.record) hr
                simp only [functions_cleanup_world, (backend_cleanup_record _ _ _ _ _).1] at hrec
                obtain ⟨r, w4⟩ := res
                cases r with
                | error e1 => intro _; exact hrec.symm
                | ok v =>
                  simp only [recordUpdate]
                  cases env.recordUpdate with
                  | some e1 => intro _; exact hrec.symm
                  | none => intro h; simp at h
            · simp only [hc, if_false, recordUpdate]
              cases env.recordUpdate with
              | some e1 => intro _; cases env.unread <;> rfl
              | none => intro h; simp at h

theorem functions_failure_marker_on_error (env : Env) (event : CreateEvent)
    (n : NotificationDoc) (w : World) (e : String)
    (hevent : event.data = some n)
    (hraise : (Functions.onCreateTry env event n w).1 = .error e) :
    (Functions.sendNotificationOnCreate env event w).2.trace
      = (Functions.onCreateTry env event n w).2.trace
          ++ [.recordUpdate ⟨false, none, none, some e⟩] ∧
    (env.markerUpdate = none →
      (Functions.sendNotificationOnCreate env event w).1 = .ok () ∧
      (Functions.sendNotificationOnCreate env event w).2.record
        = w.record ++ [⟨false, none, none, some e⟩]) := by
  have hrec := functions_onCreateTry_error_record env event n w e hraise
  refine ⟨?_, ?_⟩
  · unfold Functions.sendNotificationOnCreate
    simp only [hevent]
    generalize Functions.onCreateTry env event n w = res at hraise
    obtain ⟨r, w1⟩ := res
    simp only at hraise
    subst hraise
    simp only [recordUpdate]
    cases env.markerUpdate <;> simp [World.emit]
  · intro hmarker
    unfold Functions.sendNotificationOnCreate
    simp only [hevent]
    generalize Functions.onCreateTry env event n w = res at hraise hrec
    obtain ⟨r, w1⟩ := res
    simp only at hraise hrec
    subst hraise
    simp [recordUpdate, hmarker, World.emit, hrec]

/-- C12, the defect: a creation event with a snapshot for the user `"u"`, and
the read of the user throws. The `catch` of the backend build only logs: the
only external call is that read, and the notification record is left without a
failure marker. The functions build, on the same input, updates the record with
`sent = false` and the error. -/
theorem sendNotificationOnCreate_backend_no_marker :
    ((Backend.sendNotificationOnCreate readFailureEnv ⟨some (plainDoc (some "u")), "n1"⟩
          (worldOf ["A"])).2.trace = [.userGet "u"] ∧
      (Backend.sendNotificationOnCreate readFailureEnv ⟨some (plainDoc (some "u")), "n1"⟩
          (worldOf ["A"])).2.record = []) ∧
    ((Functions.sendNotificationOnCreate readFailureEnv ⟨some (plainDoc (some "u")), "n1"⟩
          (worldOf ["A"])).2.trace
        = [.userGet "u", .recordUpdate ⟨false, none, none, some "UNAVAILABLE"⟩] ∧
      (Functions.sendNotificationOnCreate readFailureEnv ⟨some (plainDoc (some "u")), "n1"⟩
          (worldOf ["A"])).2.record = [⟨false, none, none, some "UNAVAILABLE"⟩]) :=
  ⟨⟨rfl, rfl⟩, ⟨rfl, rfl⟩⟩

theorem functions_unread_failure_absorbed :
    Functions.sendNotificationOnCreate
        { userGet := none, unread := .error "UNAVAILABLE", send := .ok ⟨1, 0, [⟨true, none⟩]⟩,
          userUpdate := none, recordUpdate := none, markerUpdate := none }
        ⟨some (plainDoc (some "u")), "n1"⟩ (worldOf ["A"])
      |>.2.record = [⟨true, some 1, some 0, none⟩] :=
  rfl

theorem arrayRemove_comm (r1 r2 : List (Option String)) (arr : List String) :
    arrayRemove r2 (arrayRemove r1 arr) = arrayRemove r1 (arrayRemove r2 arr) := by
  simp only [arrayRemove, List.filter_filter]
  congr 1
  funext t
  exact Bool.and_comm _ _

theorem usersUpdate_users_comm (env : Env) (uid : String) (r1 r2 : List (Option String))
    (w : World) :
    (usersUpdate env uid r2 (usersUpdate env uid r1 w).2).2.users
      = (usersUpdate env uid r1 (usersUpdate env uid r2 w).2).2.users := by
  unfold usersUpdate
  cases hu : env.userUpdate with
  | some e => simp [World.emit]
  | none =>
    cases hw : w.users uid with
    | none => simp [World.emit, hw]
    | some u =>
      simp only [World.emit, if_true]
      funext k
      by_cases hk : k = uid
      · simp [hk, arrayRemove_comm r1 r2]
      · simp [hk]

theorem usersUpdate_users_get (env : Env) (uid : String) (r : List (Option String))
    (w : World) (u : UserData) (huser : w.users uid = some u) :
    ∃ u2, (usersUpdate env uid r w).2.users uid = some u2 := by
  unfold usersUpdate
  cases env.userUpdate with
  | some e => exact ⟨u, by simpa [World.emit] using huser⟩
  | none => simp [huser]

theorem backend_cleanup_user_exists (env : Env) (uid : String) (tokens : List String)
    (responses : List SendResponse) (w : World) (u : UserData)
    (huser : w.users uid = some u) :
    ∃ u2, (Backend.cleanupInvalidTokens env uid tokens responses w).2.users uid = some u2 := by
  unfold Backend.cleanupInvalidTokens
  cases collectInvalid tokens responses 0 [] with
  | error e => exact ⟨u, huser⟩
  | ok inv =>
    by_cases h : inv.length > 0
    · simp only [h, if_true]
      exact usersUpdate_users_get env uid inv w u huser
    · simp only [h, if_false]
      exact ⟨u, huser⟩

theorem backend_cleanup_users_comm (env : Env) (uid : String) (t1 t2 : List String)
    (r1 r2 : List SendResponse) (w : World) :
    (Backend.cleanupInvalidTokens env uid t2 r2
        (Backend.cleanupInvalidTokens env uid t1 r1 w).2).2.users
      = (Backend.cleanupInvalidTokens env uid t1 r1
        (Backend.cleanupInvalidTokens env uid t2 r2 w).2).2.users := by
  unfold Backend.cleanupInvalidTokens
  cases collectInvalid t1 r1 0 [] with
  | error e1 =>
    cases collectInvalid t2 r2 0 [] with
    | error e2 => rfl
    | ok inv2 => by_cases h2 : inv2.length > 0 <;> simp [h2]
  | ok inv1 =>
    cases collectInvalid t2 r2 0 [] with
    | error e2 => by_cases h1 : inv1.length > 0 <;> simp [h1]
    | ok inv2 =>
      by_cases h1 : inv1.length > 0 <;> by_cases h2 : inv2.length > 0 <;>
        simp only [h1, h2, if_true, if_false]
      exact usersUpdate_users_comm env uid inv1 inv2 w

theorem backend_removal_union (env : Env) (uid : String) (t1 t2 : List String)
    (r1 r2 : List SendResponse) (w : World) (u : UserData)
    (ha1 : t1.length = r1.length) (hc1 : failuresCarryError r1)
    (ha2 : t2.length = r2.length) (hc2 : failuresCarryError r2)
    (huser : w.users uid = some u) (hupdate : env.userUpdate = none) (t : String) :
    t ∈ tokensOf (Backend.cleanupInvalidTokens env uid t2 r2
        (Backend.cleanupInvalidTokens env uid t1 r1 w).2).2 uid ↔
      t ∈ tokensOf w uid ∧ t ∉ invalidSubset t1 r1 ∧ t ∉ invalidSubset t2 r2 := by
  obtain ⟨u1, hu1⟩ := backend_cleanup_user_exists env uid t1 r1 w u huser
  have h1 := (backend_tokensOf_cleanup env uid t1 r1 w u ha1 hc1 huser hupdate).2
  have h2 := (backend_tokensOf_cleanup env uid t2 r2 _ u1 ha2 hc2 hu1 hupdate).2
  rw [h2, h1, mem_arrayRemove, mem_arrayRemove]
  tauto

/-- C13: token removal is commutative. For two reconciliations of the same
user, each with aligned lists whose failures carry their error and with store
updates that succeed, applying the first and then the second leaves every
user's stored tokens as applying them in the opposite order does, and the
user's token set is then the initial set minus the union of the two sets of
permanently invalid tokens; in both builds. -/
theorem removal_commutes (env : Env) (uid : String) (t1 t2 : List String)
    (r1 r2 : List SendResponse) (w : World) (u : UserData)
    (ha1 : t1.length = r1.length) (hc1 : failuresCarryError r1)
    (ha2 : t2.length = r2.length) (hc2 : failuresCarryError r2)
    (huser : w.users uid = some u) (hupdate : env.userUpdate = none) :
    ((Backend.cleanupInvalidTokens env uid t2 r2
          (Backend.cleanupInvalidTokens env uid t1 r1 w).2).2.users
        = (Backend.cleanupInvalidTokens env uid t1 r1
          (Backend.cleanupInvalidTokens env uid t2 r2 w).2).2.users ∧
      ∀ t : String,
        t ∈ tokensOf (Backend.cleanupInvalidTokens env uid t2 r2
            (Backend.cleanupInvalidTokens env uid t1 r1 w).2).2 uid ↔
          t ∈ tokensOf w uid ∧ t ∉ invalidSubset t1 r1 ∧ t ∉ invalidSubset t2 r2) ∧
    ((Functions.cleanupInvalidTokens env uid t2 r2
          (Functions.cleanupInvalidTokens env uid t1 r1 w).2).2.users
        = (Functions.cleanupInvalidTokens env uid t1 r1
          (Functions.cleanupInvalidTokens env uid t2 r2 w).2).2.users ∧
      ∀ t : String,
        t ∈ tokensOf (Functions.cleanupInvalidTokens env uid t2 r2
            (Functions.cleanupInvalidTokens env uid t1 r1 w).2).2 uid ↔
          t ∈ tokensOf w uid ∧ t ∉ invalidSubset t1 r1 ∧ t ∉ invalidSubset t2 r2) := by
  simp only [functions_cleanup_world]
  have hcomm := backend_cleanup_users_comm env uid t1 t2 r1 r2 w
  have hunion := backend_removal_union env uid t1 t2 r1 r2 w u ha1 hc1 ha2 hc2 huser hupdate
  exact ⟨⟨hcomm, hunion⟩, ⟨hcomm, hunion⟩⟩

/-- C13 at two reconciliations of `"u"`: one removes `"B"`, the other `"C"`,
in either order `["A"]` is left. -/
theorem removal_commutes_witness :
    (failuresCarryError gatewayExampleOutcomes ∧ failuresCarryError secondExampleOutcomes) ∧
    tokensOf (Backend.cleanupInvalidTokens (calmEnv ⟨0, 0, []⟩) "u" ["A", "C"]
        secondExampleOutcomes
        (Backend.cleanupInvalidTokens (calmEnv ⟨0, 0, []⟩) "u" ["A", "B", "C"]
          gatewayExampleOutcomes (worldOf ["A", "B", "C"])).2).2 "u" = ["A"] ∧
    (Backend.cleanupInvalidTokens (calmEnv ⟨0, 0, []⟩) "u" ["A", "C"] secondExampleOutcomes
        (Backend.cleanupInvalidTokens (calmEnv ⟨0, 0, []⟩) "u" ["A", "B", "C"]
          gatewayExampleOutcomes (worldOf ["A", "B", "C"])).2).2.users
      = (Backend.cleanupInvalidTokens (calmEnv ⟨0, 0, []⟩) "u" ["A", "B", "C"]
          gatewayExampleOutcomes
          (Backend.cleanupInvalidTokens (calmEnv ⟨0, 0, []⟩) "u" ["A", "C"]
            secondExampleOutcomes (worldOf ["A", "B", "C"])).2).2.users :=
  have h := removal_commutes (calmEnv ⟨0, 0, []⟩) "u" ["A", "B", "C"] ["A", "C"]
    gatewayExampleOutcomes secondExampleOutcomes (worldOf ["A", "B", "C"])
    ⟨some ["A", "B", "C"]⟩ (by decide) (by decide) (by decide) (by decide) rfl rfl
  ⟨⟨by decide, by decide⟩, by decide, h.1.1⟩

theorem cleanupOldNotifications_filter (env : SweepEnv) (now : Int)
    (notifications : List NotificationEntry)
    (hquery : env.query = none) (hcommit : env.commit = none)
    (hids : (notifications.map (fun doc => doc.id)).Nodup) :
    (cleanupOldNotifications env now notifications).2
      = notifications.filter
          (fun doc => decide (timestampFromDate (thirtyDaysAgo now) ≤ doc.createdAt)) := by
  unfold cleanupOldNotifications
  simp only [hquery, hcommit]
  apply List.filter_congr
  intro d hd
  by_cases hlt : d.createdAt < timestampFromDate (thirtyDaysAgo now)
  · have hmem : d.id ∈ List.map (fun doc => doc.id)
        (notifications.filter
          (fun doc => decide (doc.createdAt < timestampFromDate (thirtyDaysAgo now)))) :=
      List.mem_map.2 ⟨d, List.mem_filter.2 ⟨hd, by simpa using hlt⟩, rfl⟩
    simp [hmem, not_le.2 hlt]
  · have hnot : d.id ∉ List.map (fun doc => doc.id)
        (notifications.filter
          (fun doc => decide (doc.createdAt < timestampFromDate (thirtyDaysAgo now)))) := by
      intro hmem
      obtain ⟨d2, hd2, hid⟩ := List.mem_map.1 hmem
      obtain ⟨hd2mem, hd2lt⟩ := List.mem_filter.1 hd2
      have heq : d2 = d := List.inj_on_of_nodup_map hids hd2mem hd hid
      subst heq
      exact hlt (by simpa using hd2lt)
    simp [hnot, not_lt.1 hlt]

/-- C14: a successful retention sweep (the query and the batch commit go
through) on a collection keyed by document id, at any `now`, with the cutoff 30
days before `now`: every record with `createdAt` strictly below the cutoff is
deleted, every record at or after the cutoff stays as it was, and the
collection afterwards is exactly the records with `createdAt >= cutoff`. -/
theorem cleanupOldNotifications_retention (env : SweepEnv) (now : Int)
    (notifications : List NotificationEntry)
    (hquery : env.query = none) (hcommit : env.commit = none)
    (hids : (notifications.map (fun doc => doc.id)).Nodup) :
    (cleanupOldNotifications env now notifications).1 = .ok () ∧
    (cleanupOldNotifications env now notifications).2
      = notifications.filter
          (fun doc => decide (timestampFromDate (now - 30 * 86400000) ≤ doc.createdAt)) ∧
    ∀ doc ∈ notifications,
      (doc.createdAt < timestampFromDate (now - 30 * 86400000) →
        doc ∉ (cleanupOldNotifications env now notifications).2) ∧
      (timestampFromDate (now - 30 * 86400000) ≤ doc.createdAt →
        doc ∈ (cleanupOldNotifications env now notifications).2) := by
  have h := cleanupOldNotifications_filter env now notifications hquery hcommit hids
  unfold thirtyDaysAgo at h
  refine ⟨?_, h, ?_⟩
  · unfold cleanupOldNotifications
    simp [hquery, hcommit]
  · intro doc hdoc
    rw [h]
    constructor
    · intro hlt hmem
      exact absurd hlt (not_lt.2 (of_decide_eq_true (List.mem_filter.1 hmem).2))
    · intro hle
      exact List.mem_filter.2 ⟨hdoc, decide_eq_true hle⟩

/-- C14 at a sweep one second after day 30: the record just before the cutoff
goes, the record at the cutoff and the later one stay. -/
theorem cleanupOldNotifications_retention_witness :
    (exampleNotifications.map (fun doc => doc.id)).Nodup ∧
    (cleanupOldNotifications ⟨none, none⟩ (30 * 86400000 + 1000) exampleNotifications).2
      = [⟨"edge", 1000000000⟩, ⟨"new", 2000000000⟩] :=
  have h := cleanupOldNotifications_retention ⟨none, none⟩ (30 * 86400000 + 1000)
    exampleNotifications rfl rfl (by decide)
  ⟨by decide, h.2.1.trans (by decide)⟩

end Policode
